import Mathlib

/-!
Shallow embedding of the Plant-Disease-Identification-Model service
(src/main.py). The service is a single FastAPI file: three Keras image
classifiers loaded at startup, a `/predict/` endpoint (upload → fetch-back →
preprocess → classify → Firestore create → Gemini treatment call → Firestore
update), and per-user read/delete endpoints over the `predictions` collection.

External effects (cloud storage, the Keras forward pass, the Gemini call,
Firestore) are modelled as explicit oracle inputs / pure state passing; the
control flow, the label tables, the preprocessing arithmetic, the argmax /
indexing logic and the exception handling are translated directly from the
source.
-/

namespace PlantCare

/-- Identifiers for the three classifier artifacts loaded at startup
(src/main.py lines 29-31: `mango_model`, `tomato_model`, `chili_model`). -/
inductive ModelId where
  | mango
  | tomato
  | chili
  deriving DecidableEq, Repr

/-- Label table for predictions, src/main.py lines 34-41 (`class_names`). -/
def class_names : List (String × List String) :=
  [("mango", ["Anthracnose", "Bacterial Canker", "Cutting Weevil", "Die Back",
              "Gall Midge", "Healthy", "Powdery Mildew", "Sooty Mould"]),
   ("tomato", ["Bacterial_spot", "Early_blight", "Late_blight", "Leaf_Mold",
               "Septoria_leaf_spot", "Spider_mites", "Target_Spot",
               "Tomato_Yellow_Leaf_Curl_Virus", "Tomato_mosaic_virus", "healthy"]),
   ("chili", ["Bacterial_spot", "Healthy", "Late_blight", "Leaf_Mold"])]

/-- Dictionary lookup `class_names[plant_type]`; `none` models a missing key
(the `plant_type not in class_names` test at line 93). -/
def class_names_lookup (plant_type : String) : Option (List String) :=
  (class_names.find? (fun p => p.1 == plant_type)).map Prod.snd

/-- Model selection, src/main.py line 110:
`model = mango_model if plant_type == 'mango' else tomato_model`.
Note that `chili_model` does not occur in this expression. -/
def select_model (plant_type : String) : ModelId :=
  if plant_type == "mango" then ModelId.mango else ModelId.tomato

/-- Modelled from the spec: the classifier artifacts `models/mango.h5`,
`models/tomato.h5`, `models/chili.h5` are binary files absent from src/.
Per spec §3 (ClassifierModel), each classifier's output is a probability
vector whose length equals its plant's label-set size: mango 8, tomato 10,
chili 4 (the lengths of the `class_names` entries). -/
def numClasses : ModelId → Nat
  | ModelId.mango => 8
  | ModelId.tomato => 10
  | ModelId.chili => 4

/-- Tail of `np.argmax` (first index of the maximum): scan the remaining
entries, keeping the current best value `b` at index `best`, with `i` the
index of the head of the remaining list. A strict comparison keeps the
earliest occurrence on ties, as numpy does. -/
def argmaxGo : List ℚ → ℚ → Nat → Nat → Nat
  | [], _, best, _ => best
  | y :: ys, b, best, i =>
      if b < y then argmaxGo ys y i (i + 1) else argmaxGo ys b best (i + 1)

/-- Index of the first maximum of a rational list (`np.argmax`,
src/main.py line 114). On `[]` numpy raises; we return 0, which then fails
every subsequent lookup exactly as the raised exception would (both reach
the same `except` clause). -/
def argmax : List ℚ → Nat
  | [] => 0
  | x :: xs => argmaxGo xs x 0 1

/-- Running maximum over the remaining entries, used only to reason about
`argmax` (the value sitting at the index `argmaxGo` returns). -/
def runMax : List ℚ → ℚ → ℚ
  | [], b => b
  | y :: ys, b => if b < y then runMax ys y else runMax ys b

/-- Outcome of one call to the external generative model
(`model.generate_content(prompt)` at src/main.py line 155):
either the call (or the subsequent `.text` access) raises, or it returns a
response object — `response none` is a falsy response object (the
`if treatment_suggestion` test), `response (some t)` a truthy one whose
`.text` is `t`. -/
inductive GenOutcome where
  | raises
  | response (text : Option String)
  deriving DecidableEq, Repr

/-- Prompt construction, src/main.py line 152. Only `plant` and `disease`
are interpolated. -/
def treatment_prompt (disease plant : String) : String :=
  "Langkah-langkah mengatasi/merawat " ++ plant ++ " yang terkena penyakit "
    ++ disease ++ " dengan penjelasan singkat dan tepat"

/-- Treatment generation, src/main.py lines 147-159. `user_id` is a
parameter of the Python function but is not mentioned in its body.
`gen` is the external generative model, an oracle from the prompt sent to
the outcome of the call; the `try`/`except` around `generate_content`
maps every raise to the error string, a falsy response to the fallback
string, and a truthy response to its `.text`. -/
def generate_treatment (disease plant user_id : String)
    (gen : String → GenOutcome) : String :=
  match gen (treatment_prompt disease plant) with
  | GenOutcome.raises => "Error generating treatment suggestion."
  | GenOutcome.response none => "No suggestion available."
  | GenOutcome.response (some t) => t

/-- Stored prediction document (the `result` dict built at src/main.py
lines 124-132). `treatment` is `none` for the JSON `null`. -/
structure Record where
  user_id : String
  plant_type : String
  disease : String
  probability : ℚ
  image_url : String
  treatment : Option String
  scanned_data : String
  deriving DecidableEq, Repr

/-- Firestore `predictions` collection: document id paired with document
content. -/
abbrev Store := List (String × Record)

/-- Document fetch by id (used to state frame properties of the writes). -/
def getDoc (store : Store) (id : String) : Option Record :=
  (List.find? (fun p => p.1 == id) store).map Prod.snd

/-- Firestore `.document(id).set(result)` (src/main.py line 134): replaces
any document at `id` with the given content. -/
def setDoc (store : Store) (id : String) (rec : Record) : Store :=
  List.filter (fun p => p.1 != id) store ++ [(id, rec)]

/-- Per-document effect of the treatment update: the document at `id` gets
its `treatment` field set, every other document is untouched. -/
def updPair (id t : String) (p : String × Record) : String × Record :=
  if p.1 == id then (p.1, { p.2 with treatment := some t }) else p

/-- Firestore `.document(id).update({'treatment': t})` (src/main.py
line 139): a partial write touching only the `treatment` field of the
document at `id`. -/
def updateTreatment (store : Store) (id : String) (t : String) : Store :=
  List.map (updPair id t) store

/-- Firestore `.where('user_id', '==', user_id).stream()` (src/main.py
lines 178 and 199): all documents whose `user_id` equals the given one. -/
def listByUser (store : Store) (user_id : String) : List (String × Record) :=
  List.filter (fun p => p.2.user_id == user_id) store

/-- FastAPI `HTTPException(status_code, detail)`. -/
structure HTTPExc where
  status_code : Nat
  detail : String
  deriving DecidableEq, Repr

/-- Body of the `try` block of GET `/scanned_data/{user_id}` (src/main.py
lines 177-189): stream the user's documents; if the result list is empty,
raise `HTTPException(404, ...)`; otherwise return the list. -/
def get_prediction_try (store : Store) (user_id : String) :
    Except HTTPExc (List (String × Record)) :=
  let results := listByUser store user_id
  if results.isEmpty then
    Except.error ⟨404, "No prediction data found for this user ID."⟩
  else
    Except.ok results

/-- GET `/scanned_data/{user_id}` (src/main.py lines 174-193), returning
(HTTP status, result list). The `except Exception` clause at line 191
catches every exception — including the `HTTPException(404)` raised inside
the `try`, since FastAPI's `HTTPException` subclasses `Exception` — and
re-raises it as a 500. -/
def get_prediction (store : Store) (user_id : String) :
    Nat × List (String × Record) :=
  match get_prediction_try store user_id with
  | Except.ok results => (200, results)
  | Except.error _e => (500, [])

/-- Body of the `try` block of DELETE `/scanned_data/{user_id}`
(src/main.py lines 198-209): stream the user's documents, delete each and
count them; if the count is 0 raise `HTTPException(404, ...)`, else return
the success message with the count. -/
def delete_prediction_try (store : Store) (user_id : String) :
    Except HTTPExc (Store × Nat × String) :=
  let deleted_count := (listByUser store user_id).length
  let store' := List.filter (fun p => p.2.user_id != user_id) store
  if deleted_count == 0 then
    Except.error ⟨404, "No prediction data found for this user ID."⟩
  else
    Except.ok (store', deleted_count,
      "Deleted " ++ toString deleted_count ++ " prediction(s) successfully.")

/-- DELETE `/scanned_data/{user_id}` (src/main.py lines 195-213), returning
(HTTP status, resulting store, optional success message). As in
`get_prediction`, the blanket `except Exception` at line 211 catches the
internal `HTTPException(404)` and re-raises it as a 500; on that path no
document had matched, so the store is unchanged. -/
def delete_prediction (store : Store) (user_id : String) :
    Nat × Store × Option String :=
  match delete_prediction_try store user_id with
  | Except.ok (store', _n, msg) => (200, store', some msg)
  | Except.error _e => (500, store, none)

/-- Decoded image: height × width × channels grid of pixel-channel values
(Keras `load_img` yields floats 0..255 before normalization; we use ℚ). -/
abbrev Image := List (List (List ℚ))

/-- Pixel-channel accessor: value at row `i`, column `j`, channel `k`. -/
def px3 (img : Image) (i j k : Nat) : Option ℚ :=
  (img.get? i).bind (fun row => (row.get? j).bind (fun px => px.get? k))

/-- Shape predicate: `h` rows, each of `w` pixels, each of `c` channels. -/
def imgShape (img : Image) (h w c : Nat) : Prop :=
  img.length = h ∧ ∀ row ∈ img, row.length = w ∧ ∀ px ∈ row, px.length = c

/-- Resize target passed to `load_img` (src/main.py line 105:
`target_size=(256, 256)`); `load_img` decodes the fetched bytes and resizes
to this size with three RGB channels. -/
def target_size : Nat × Nat := (256, 256)

/-- Normalization `image.img_to_array(img) / 255.0` (src/main.py line 106):
divide every pixel-channel value by 255. -/
def img_to_array_div255 (img : Image) : Image :=
  img.map (fun row => row.map (fun px => px.map (fun v => v / 255)))

/-- Batch dimension `np.expand_dims(img_array, axis=0)` (src/main.py
line 107): wrap the image in a leading axis of size 1. -/
def expand_dims0 (img : Image) : List Image := [img]

/-- Preprocessing applied to the decoded image before inference
(src/main.py lines 106-107): normalize by 255, then add the batch axis. -/
def preprocess (img : Image) : List Image :=
  expand_dims0 (img_to_array_div255 img)

/-- Per-request external inputs of `/predict/`: the decoded image returned
by `load_img`, the forward pass of each loaded model as an oracle from the
preprocessed batch to the batched output array (`model.predict`, shape
(1, numClasses)), the generative-model oracle, and the request-time fresh
values (`str(uuid.uuid4())` document id, `blob.public_url`, the
`datetime.now().strftime` date string). -/
structure PredictEnv where
  raw_img : Image
  modelOutput : ModelId → List Image → List (List ℚ)
  gen : String → GenOutcome
  document_id : String
  image_url : String
  scanned_data : String

/-- Side-effect counters observed during one `/predict/` request: blob
uploads, forward inferences, Firestore document creates and updates. -/
structure PredictEffects where
  uploads : Nat
  inferences : Nat
  creates : Nat
  updates : Nat
  deriving DecidableEq, Repr

/-- No side effect performed. -/
def noEffects : PredictEffects := ⟨0, 0, 0, 0⟩

/-- Outcome of one `/predict/` request: HTTP status, resulting store,
side-effect counters, and the response body on success. -/
structure PredictResult where
  status : Nat
  store : Store
  effects : PredictEffects
  response : Option Record

/-- POST `/predict/` (src/main.py lines 89-145). The `plant_type` check at
line 93 runs before the `try` block, so an unknown plant type yields 400
with no side effect. Inside the `try`: upload and fetch-back (lines
98-105, summarized by `env.image_url` and `env.raw_img`), preprocessing
(lines 106-107), model selection (line 110), forward pass (line 113),
`predicted_class = np.argmax(predictions)` (line 114, which flattens the
(1, n) output, so it equals the argmax of the concatenated rows),
`class_names[plant_type][predicted_class]` (line 115) and
`predictions[0][predicted_class]` (line 128) — either indexing raising
`IndexError` when out of range, caught by the `except` at line 143 as a
500 — then the Firestore create with `treatment: None` (line 134), the
treatment call (line 136) and the treatment-only update (line 139). -/
def predict (plant_type user_id : String) (env : PredictEnv) (store : Store) :
    PredictResult :=
  match class_names_lookup plant_type with
  | none => { status := 400, store := store, effects := noEffects, response := none }
  | some labels =>
    let image_url := env.image_url
    let img_array := preprocess env.raw_img
    let model := select_model plant_type
    let predictions := env.modelOutput model img_array
    let predicted_class := argmax predictions.flatten
    match labels.get? predicted_class with
    | none =>
        { status := 500, store := store,
          effects := { uploads := 1, inferences := 1, creates := 0, updates := 0 },
          response := none }
    | some disease_name =>
      match (predictions.headD []).get? predicted_class with
      | none =>
          { status := 500, store := store,
            effects := { uploads := 1, inferences := 1, creates := 0, updates := 0 },
            response := none }
      | some prob =>
        let result : Record :=
          { user_id := user_id, plant_type := plant_type, disease := disease_name,
            probability := prob, image_url := image_url, treatment := none,
            scanned_data := env.scanned_data }
        let store1 := setDoc store env.document_id result
        let treatment_text := generate_treatment disease_name plant_type user_id env.gen
        let store2 := updateTreatment store1 env.document_id treatment_text
        { status := 200, store := store2,
          effects := { uploads := 1, inferences := 1, creates := 1, updates := 1 },
          response := some { result with treatment := some treatment_text } }

/-- Request-time environment used to instantiate witnesses: every model call
returns the single batched row `out`, the generative oracle is `g`, and the
fresh per-request values are fixed strings. -/
def mkEnv (out : List ℚ) (g : String → GenOutcome) : PredictEnv :=
  { raw_img := [], modelOutput := fun _ _ => [out], gen := g,
    document_id := "doc-1", image_url := "http://example/img.png",
    scanned_data := "2024:01:01" }

/-- Generative oracle that always answers with a fixed suggestion. -/
def genOk : String → GenOutcome := fun _ => GenOutcome.response (some "spray weekly")

/-- Output row putting all mass on index 9 (out of range for a 4-label list). -/
def oneHot9 : List ℚ := [0, 0, 0, 0, 0, 0, 0, 0, 0, 1]

/-- Concrete stored record used in witnesses. -/
def rec1 : Record :=
  { user_id := "u1", plant_type := "mango", disease := "Healthy",
    probability := 9/10, image_url := "http://example/img.png",
    treatment := some "spray weekly", scanned_data := "2024:01:01" }

/-! ### Helper lemmas about `argmax` -/

/-- Base value is below the running maximum. -/
theorem runMax_le (xs : List ℚ) : ∀ b : ℚ, b ≤ runMax xs b := by
  induction xs with
  | nil => intro b; simp [runMax]
  | cons y ys ih =>
      intro b
      by_cases h : b < y
      · calc b ≤ y := le_of_lt h
          _ ≤ runMax ys y := ih y
          _ = runMax (y :: ys) b := by simp [runMax, h]
      · simpa [runMax, h] using ih b

/-- Every scanned element is below the running maximum. -/
theorem mem_le_runMax (xs : List ℚ) : ∀ (b : ℚ), ∀ x ∈ xs, x ≤ runMax xs b := by
  induction xs with
  | nil => intro b x hx; simp at hx
  | cons y ys ih =>
      intro b x hx
      rcases List.mem_cons.mp hx with h | h
      · subst h
        by_cases hb : b < x
        · simpa [runMax, hb] using runMax_le ys x
        · calc x ≤ b := le_of_not_lt hb
            _ ≤ runMax ys b := runMax_le ys b
            _ = runMax (x :: ys) b := by simp [runMax, hb]
      · by_cases hb : b < y
        · simpa [runMax, hb] using ih y x h
        · simpa [runMax, hb] using ih b x h

/-- Invariant of the `argmax` scan: if the current best index holds the
current best value and the tail being scanned sits at offset `i` of `L`,
the returned index holds the running maximum. -/
theorem argmaxGo_get (xs : List ℚ) : ∀ (L : List ℚ) (b : ℚ) (best i : Nat),
    L.get? best = some b → L.drop i = xs →
    L.get? (argmaxGo xs b best i) = some (runMax xs b) := by
  induction xs with
  | nil => intro L b best i hb _; simpa [argmaxGo, runMax] using hb
  | cons y ys ih =>
      intro L b best i hb hd
      have hy : L.get? i = some y := by
        have h0 : (L.drop i).get? 0 = some y := by rw [hd]; rfl
        rwa [List.get?_drop, Nat.add_zero] at h0
      have hys : L.drop (i + 1) = ys := by
        have h1 : (L.drop i).drop 1 = ys := by rw [hd]; rfl
        rwa [List.drop_drop] at h1
      by_cases h : b < y
      · simpa [argmaxGo, runMax, h] using ih L y i (i + 1) hy hys
      · simpa [argmaxGo, runMax, h] using ih L b best (i + 1) hb hys

/-- Value sitting at the index `argmax` returns, for a nonempty list. -/
theorem get_argmax_cons (x : ℚ) (xs : List ℚ) :
    (x :: xs).get? (argmax (x :: xs)) = some (runMax xs x) :=
  argmaxGo_get xs (x :: xs) x 0 1 rfl rfl

/-- The value at the `argmax` index dominates every element of the list. -/
theorem argmax_is_max (x : ℚ) (xs : List ℚ) :
    ∀ v ∈ x :: xs, v ≤ runMax xs x := by
  intro v hv
  rcases List.mem_cons.mp hv with h | h
  · subst h; exact runMax_le xs v
  · exact mem_le_runMax xs x v h

/-! ### Helper lemmas about the document store -/

/-- Documents filtered away by key are invisible to a lookup for that key. -/
theorem find?_filter_ne (store : Store) (id : String) :
    List.find? (fun p => p.1 == id) (List.filter (fun p => p.1 != id) store) = none := by
  rw [List.find?_eq_none]
  intro p hp
  have hmem := List.of_mem_filter hp
  simpa [bne] using hmem

/-- Looking up a key other than the one being filtered out is unchanged. -/
theorem find?_filter_of_ne (store : Store) (id id' : String) (h : id' ≠ id) :
    List.find? (fun p => p.1 == id') (List.filter (fun p => p.1 != id) store)
      = List.find? (fun p => p.1 == id') store := by
  induction store with
  | nil => rfl
  | cons q qs ih =>
      rw [List.filter_cons]
      by_cases hqid : q.1 = id
      · rw [if_neg (show ¬ ((q.1 != id) = true) by simp [bne, hqid])]
        rw [ih, @List.find?_cons_of_neg _ (fun p => p.1 == id') q qs
          (show ¬ ((q.1 == id') = true) by simp [hqid, Ne.symm h])]
      · rw [if_pos (show (q.1 != id) = true by simp [bne, hqid])]
        by_cases hq' : (q.1 == id') = true
        · rw [@List.find?_cons_of_pos _ (fun p => p.1 == id') q
              (List.filter (fun p => p.1 != id) qs) hq',
            @List.find?_cons_of_pos _ (fun p => p.1 == id') q qs hq']
        · rw [@List.find?_cons_of_neg _ (fun p => p.1 == id') q
              (List.filter (fun p => p.1 != id) qs) hq',
            @List.find?_cons_of_neg _ (fun p => p.1 == id') q qs hq', ih]

/-- Reading back the document just written by `setDoc`. -/
theorem getDoc_setDoc_self (store : Store) (id : String) (rec : Record) :
    getDoc (setDoc store id rec) id = some rec := by
  unfold getDoc setDoc
  rw [List.find?_append, find?_filter_ne]
  simp [List.find?]

/-- Writing one document leaves every other document unchanged. -/
theorem getDoc_setDoc_ne (store : Store) (id id' : String) (rec : Record)
    (h : id' ≠ id) :
    getDoc (setDoc store id rec) id' = getDoc store id' := by
  unfold getDoc setDoc
  rw [List.find?_append, find?_filter_of_ne store id id' h]
  have hbe : (id == id') = false := by
    simp [Ne.symm h]
  cases hfind : List.find? (fun p => p.1 == id') store <;>
    simp [List.find?, hbe, hfind]

/-- Looking up any key after the treatment-update map finds the updated
image of whatever the lookup found before. -/
theorem find?_map_updPair (store : Store) (id key t : String) :
    List.find? (fun p => p.1 == key) (List.map (updPair id t) store)
      = (List.find? (fun p => p.1 == key) store).map (updPair id t) := by
  induction store with
  | nil => rfl
  | cons q qs ih =>
      have hfst : (updPair id t q).1 = q.1 := by
        unfold updPair; split <;> rfl
      rw [List.map_cons]
      by_cases hk : (q.1 == key) = true
      · rw [@List.find?_cons_of_pos _ (fun p => p.1 == key) (updPair id t q)
            (List.map (updPair id t) qs)
            (show ((updPair id t q).1 == key) = true by rw [hfst]; exact hk),
          @List.find?_cons_of_pos _ (fun p => p.1 == key) q qs hk]
        rfl
      · rw [@List.find?_cons_of_neg _ (fun p => p.1 == key) (updPair id t q)
            (List.map (updPair id t) qs)
            (show ¬ (((updPair id t q).1 == key) = true) by rw [hfst]; exact hk),
          @List.find?_cons_of_neg _ (fun p => p.1 == key) q qs hk, ih]

/-- Reading back the document whose `treatment` was just updated: only the
`treatment` field changed. -/
theorem getDoc_updateTreatment_self (store : Store) (id : String) (t : String) :
    getDoc (updateTreatment store id t) id
      = (getDoc store id).map (fun r => { r with treatment := some t }) := by
  unfold getDoc updateTreatment
  rw [find?_map_updPair]
  cases hfind : List.find? (fun p => p.1 == id) store with
  | none => rfl
  | some q =>
      have hq : (q.1 == id) = true :=
        @List.find?_some _ (fun p => p.1 == id) q store hfind
      simp [updPair, hq]

/-- Updating one document's `treatment` leaves every other document
unchanged. -/
theorem getDoc_updateTreatment_ne (store : Store) (id id' : String) (t : String)
    (h : id' ≠ id) :
    getDoc (updateTreatment store id t) id' = getDoc store id' := by
  unfold getDoc updateTreatment
  rw [find?_map_updPair]
  cases hfind : List.find? (fun p => p.1 == id') store with
  | none => rfl
  | some q =>
      have hq : q.1 = id' := by
        simpa using @List.find?_some _ (fun p => p.1 == id') q store hfind
      have hne : (q.1 == id) = false := by simp [hq, h]
      simp [updPair, hne]

/-! ### Helper lemmas about preprocessing -/

/-- Pointwise description of the normalization step: every pixel-channel
value of the normalized image is the corresponding input value divided
by 255. -/
theorem px3_img_to_array_div255 (img : Image) (i j k : Nat) :
    px3 (img_to_array_div255 img) i j k
      = Option.map (fun v => v / 255) (px3 img i j k) := by
  unfold px3 img_to_array_div255
  rw [List.get?_map]
  cases himg : img.get? i with
  | none => rfl
  | some row =>
      simp only [Option.map_some', Option.some_bind]
      rw [List.get?_map]
      cases hrow : row.get? j with
      | none => rfl
      | some px =>
          simp only [Option.map_some', Option.some_bind]
          rw [List.get?_map]

/-- Normalization preserves the shape of the image. -/
theorem imgShape_img_to_array_div255 (img : Image) (h w c : Nat)
    (hs : imgShape img h w c) : imgShape (img_to_array_div255 img) h w c := by
  obtain ⟨hlen, hrows⟩ := hs
  refine ⟨by simpa [img_to_array_div255] using hlen, ?_⟩
  intro row' hrow'
  rcases List.mem_map.mp hrow' with ⟨row, hrow, rfl⟩
  obtain ⟨hrlen, hpx⟩ := hrows row hrow
  refine ⟨by simpa using hrlen, ?_⟩
  intro px' hpx'
  rcases List.mem_map.mp hpx' with ⟨px, hpxm, rfl⟩
  simpa using hpx px hpxm

/-- Shape of a constant image built from `List.replicate`. -/
theorem imgShape_replicate (h w c : Nat) (q : ℚ) :
    imgShape (List.replicate h (List.replicate w (List.replicate c q))) h w c := by
  refine ⟨List.length_replicate _ _, ?_⟩
  intro row hrow
  rw [List.eq_of_mem_replicate hrow]
  refine ⟨List.length_replicate _ _, ?_⟩
  intro px hpx
  rw [List.eq_of_mem_replicate hpx]
  exact List.length_replicate _ _

/-- Constant 256×256×3 image with every pixel-channel value 100, used to
instantiate witnesses. -/
def img0 : Image :=
  List.replicate 256 (List.replicate 256 (List.replicate 3 (100 : ℚ)))

/-- Output row used for the mango witness: maximum 3/5 at index 2. -/
def mangoRow : List ℚ := [1/10, 1/20, 3/5, 1/10, 1/20, 1/20, 1/20, 1/20]

/-- Firestore `result` dict as first written at src/main.py lines 124-132:
the full record, with `treatment: None`. -/
def initialRecord (plant_type user_id disease : String) (prob : ℚ)
    (env : PredictEnv) : Record :=
  { user_id := user_id, plant_type := plant_type, disease := disease,
    probability := prob, image_url := env.image_url, treatment := none,
    scanned_data := env.scanned_data }

/-! ### Claim theorems -/

/-- C1: the claim says `/predict/` selects the classifier loaded for the
requested plant type — `mango_model` for 'mango', `tomato_model` for
'tomato', `chili_model` for 'chili'. The selection expression at
src/main.py line 110 (`mango_model if plant_type == 'mango' else
tomato_model`) never mentions `chili_model`: for 'chili' it selects the
tomato classifier, refuting the chili case (the mango and tomato cases do
hold). -/
theorem c1_chili_runs_tomato_model :
    select_model "mango" = ModelId.mango ∧
    select_model "tomato" = ModelId.tomato ∧
    select_model "chili" = ModelId.tomato ∧
    select_model "chili" ≠ ModelId.chili := by
  refine ⟨by decide, by decide, by decide, by decide⟩

/-- C2: the claim says GET `/scanned_data/{user_id}` responds 404 when the
user has no stored records. In the code the 404 `HTTPException` is raised
inside the `try` block and the blanket `except Exception` catches it
(FastAPI's `HTTPException` subclasses `Exception`) and re-raises it as a
500: the try-body does produce the 404 exception, but the endpoint's final
status on an empty result set is 500. -/
theorem c2_empty_user_gets_500 (store : Store) (user_id : String)
    (h : listByUser store user_id = []) :
    get_prediction_try store user_id =
      Except.error ⟨404, "No prediction data found for this user ID."⟩ ∧
    get_prediction store user_id = (500, []) := by
  have ht : get_prediction_try store user_id =
      Except.error ⟨404, "No prediction data found for this user ID."⟩ := by
    unfold get_prediction_try
    rw [h]
    rfl
  exact ⟨ht, by unfold get_prediction; rw [ht]⟩

/-- Witness for C2 at a concrete input: the empty store has no record for
user "nobody", and the endpoint answers 500, not 404. -/
theorem c2_empty_user_gets_500_witness :
    listByUser [] "nobody" = [] ∧
    get_prediction [] "nobody" = (500, []) :=
  ⟨by decide, (c2_empty_user_gets_500 [] "nobody" (by decide)).2⟩

/-- C3: the claim says DELETE `/scanned_data/{user_id}` responds 404 on a
user with zero records, and on N > 0 records deletes exactly those N and
answers 'Deleted N prediction(s) successfully.'. The N > 0 part holds; the
zero-record part fails: as in `get_prediction`, the internal 404
`HTTPException` is caught by the blanket `except Exception` and re-raised
as a 500. -/
theorem c3_delete_counts_and_500_on_empty (store : Store) (user_id : String) :
    (listByUser store user_id = [] →
      delete_prediction_try store user_id =
        Except.error ⟨404, "No prediction data found for this user ID."⟩ ∧
      delete_prediction store user_id = (500, store, none)) ∧
    (∀ n, (listByUser store user_id).length = n → 0 < n →
      delete_prediction store user_id =
        (200, List.filter (fun p => p.2.user_id != user_id) store,
          some ("Deleted " ++ toString n ++ " prediction(s) successfully."))) := by
  constructor
  · intro h
    have ht : delete_prediction_try store user_id =
        Except.error ⟨404, "No prediction data found for this user ID."⟩ := by
      unfold delete_prediction_try
      rw [h]
      rfl
    exact ⟨ht, by unfold delete_prediction; rw [ht]⟩
  · intro n hn hpos
    have hz : (n == 0) = false := by
      simp [Nat.pos_iff_ne_zero] at hpos
      simp [hpos]
    have ht : delete_prediction_try store user_id =
        Except.ok (List.filter (fun p => p.2.user_id != user_id) store, n,
          "Deleted " ++ toString n ++ " prediction(s) successfully.") := by
      unfold delete_prediction_try
      rw [hn]
      simp only [hz, Bool.false_eq_true, if_false]
    unfold delete_prediction
    rw [ht]

/-- Witness for C3 at concrete inputs: deleting for a user with zero records
answers 500 (not 404); deleting for a user with exactly one record answers
200 with the count-1 message. -/
theorem c3_delete_counts_and_500_on_empty_witness :
    delete_prediction [] "u1" = (500, [], none) ∧
    delete_prediction [("d1", rec1)] "u1" =
      (200, List.filter (fun p => p.2.user_id != "u1") [("d1", rec1)],
        some ("Deleted " ++ toString 1 ++ " prediction(s) successfully.")) :=
  ⟨((c3_delete_counts_and_500_on_empty [] "u1").1 (by decide)).2,
    (c3_delete_counts_and_500_on_empty [("d1", rec1)] "u1").2 1 (by decide) (by decide)⟩

/-- C4: for every `plant_type` that is not a key of `class_names`,
`/predict/` answers 400 with no side effect — the membership test at
src/main.py line 93 runs before the `try` block, so no upload, no
inference, and no store write happens and the store is unchanged. -/
theorem c4_unknown_plant_type_400_no_side_effect
    (plant_type user_id : String) (env : PredictEnv) (store : Store)
    (h : class_names_lookup plant_type = none) :
    predict plant_type user_id env store =
      { status := 400, store := store, effects := noEffects, response := none } := by
  unfold predict
  rw [h]

/-- Witness for C4 at a concrete input: "banana" is not a key of
`class_names`, and the request ends in a 400 with zero effect counters. -/
theorem c4_unknown_plant_type_400_no_side_effect_witness :
    class_names_lookup "banana" = none ∧
    predict "banana" "u1" (mkEnv oneHot9 genOk) [] =
      { status := 400, store := [], effects := noEffects, response := none } :=
  ⟨by decide,
    c4_unknown_plant_type_400_no_side_effect "banana" "u1" (mkEnv oneHot9 genOk) [] (by decide)⟩

/-- C5: `generate_treatment` is a total function into `String`: whatever
the external call does, it returns the response text on a truthy response,
the literal "No suggestion available." on a falsy (empty) response, and the
literal "Error generating treatment suggestion." when the call raises —
never propagating an exception. -/
theorem c5_generate_treatment_never_raises
    (disease plant user_id : String) (gen : String → GenOutcome) :
    (gen (treatment_prompt disease plant) = GenOutcome.raises →
      generate_treatment disease plant user_id gen =
        "Error generating treatment suggestion.") ∧
    (gen (treatment_prompt disease plant) = GenOutcome.response none →
      generate_treatment disease plant user_id gen = "No suggestion available.") ∧
    (∀ t, gen (treatment_prompt disease plant) = GenOutcome.response (some t) →
      generate_treatment disease plant user_id gen = t) := by
  refine ⟨fun h => ?_, fun h => ?_, fun t h => ?_⟩ <;>
    unfold generate_treatment <;> rw [h]

/-- C6: on a successful `/predict/` request whose selected model answered
the single output row `row`, the response's `disease` is the label at the
arg-max index of `row` (line 115), its `probability` is the raw output
value at that same index (line 128) — which is moreover the maximum of the
output vector, hence not re-normalized. -/
theorem c6_label_and_probability_at_argmax
    (plant_type user_id : String) (env : PredictEnv) (store : Store)
    (labels : List String) (row : List ℚ)
    (hlabels : class_names_lookup plant_type = some labels)
    (hrow : env.modelOutput (select_model plant_type) (preprocess env.raw_img) = [row])
    (hne : row ≠ [])
    (hlen : row.length ≤ labels.length) :
    ∃ resp : Record,
      (predict plant_type user_id env store).status = 200 ∧
      (predict plant_type user_id env store).response = some resp ∧
      labels.get? (argmax row) = some resp.disease ∧
      row.get? (argmax row) = some resp.probability ∧
      ∀ v ∈ row, v ≤ resp.probability := by
  obtain ⟨x, xs, rfl⟩ : ∃ x xs, row = x :: xs := by
    cases row with
    | nil => exact absurd rfl hne
    | cons a as => exact ⟨a, as, rfl⟩
  have hflat : ([x :: xs] : List (List ℚ)).flatten = x :: xs := by simp
  have hget : (x :: xs).get? (argmax (x :: xs)) = some (runMax xs x) :=
    get_argmax_cons x xs
  have hlt : argmax (x :: xs) < (x :: xs).length := by
    rcases List.get?_eq_some.mp hget with ⟨hbound, _⟩
    exact hbound
  have hltl : argmax (x :: xs) < labels.length := lt_of_lt_of_le hlt hlen
  have hd : labels.get? (argmax (x :: xs)) = some (labels.get ⟨argmax (x :: xs), hltl⟩) :=
    List.get?_eq_get hltl
  have hhead : (([x :: xs] : List (List ℚ)).headD []) = x :: xs := rfl
  refine ⟨{ user_id := user_id, plant_type := plant_type,
            disease := labels.get ⟨argmax (x :: xs), hltl⟩,
            probability := runMax xs x, image_url := env.image_url,
            treatment := some (generate_treatment
              (labels.get ⟨argmax (x :: xs), hltl⟩) plant_type user_id env.gen),
            scanned_data := env.scanned_data }, ?_, ?_, hd, hget, argmax_is_max x xs⟩ <;>
  · unfold predict
    rw [hlabels]
    simp only [hrow, hflat, hhead, hd, hget]

/-- Witness for C6 at a concrete input: the mango model answers `mangoRow`,
whose maximum 3/5 sits at index 2, so the response carries the mango label
at index 2 with probability 3/5. -/
theorem c6_label_and_probability_at_argmax_witness :
    ∃ resp : Record,
      (predict "mango" "u1" (mkEnv mangoRow genOk) []).status = 200 ∧
      (predict "mango" "u1" (mkEnv mangoRow genOk) []).response = some resp ∧
      (["Anthracnose", "Bacterial Canker", "Cutting Weevil", "Die Back",
        "Gall Midge", "Healthy", "Powdery Mildew", "Sooty Mould"] : List String).get?
          (argmax mangoRow) = some resp.disease ∧
      mangoRow.get? (argmax mangoRow) = some resp.probability ∧
      ∀ v ∈ mangoRow, v ≤ resp.probability :=
  c6_label_and_probability_at_argmax "mango" "u1" (mkEnv mangoRow genOk) []
    (["Anthracnose", "Bacterial Canker", "Cutting Weevil", "Die Back",
      "Gall Midge", "Healthy", "Powdery Mildew", "Sooty Mould"]) mangoRow
    rfl rfl (by decide) (by decide)

/-- C7: the preprocessing between decode and inference. `load_img` is
called with `target_size = (256, 256)` (three RGB channels); the decoded
image is then divided pointwise by 255 and wrapped in a leading batch axis
of size 1. The theorem states: the batch has length 1 and its single
element is the normalized image; every pixel-channel value of that element
is the decoded value divided by 255; the 256×256×3 shape is preserved; and
decoded values in [0, 255] land in [0, 1]. -/
theorem c7_preprocess_contract :
    target_size = (256, 256) ∧
    ∀ img : Image,
      (preprocess img).length = 1 ∧
      (preprocess img).headD [] = img_to_array_div255 img ∧
      (∀ i j k, px3 ((preprocess img).headD []) i j k
          = Option.map (fun v => v / 255) (px3 img i j k)) ∧
      (imgShape img 256 256 3 → imgShape ((preprocess img).headD []) 256 256 3) ∧
      (∀ i j k (v : ℚ), px3 img i j k = some v → 0 ≤ v → v ≤ 255 →
        px3 ((preprocess img).headD []) i j k = some (v / 255) ∧
        0 ≤ v / 255 ∧ v / 255 ≤ 1) := by
  refine ⟨rfl, fun img => ⟨rfl, rfl, ?_, ?_, ?_⟩⟩
  · intro i j k
    exact px3_img_to_array_div255 img i j k
  · intro hs
    exact imgShape_img_to_array_div255 img 256 256 3 hs
  · intro i j k v hv h0 h255
    refine ⟨?_, div_nonneg h0 (by norm_num), ?_⟩
    · rw [show (preprocess img).headD [] = img_to_array_div255 img from rfl,
        px3_img_to_array_div255, hv]
      rfl
    · exact (div_le_one (by norm_num)).mpr h255

/-- Witness for C7 at a concrete input: the constant 256×256×3 image with
value 100 preprocesses to a batch of one 256×256×3 image whose values are
100/255, inside [0, 1]. -/
theorem c7_preprocess_contract_witness :
    (preprocess img0).length = 1 ∧
    imgShape ((preprocess img0).headD []) 256 256 3 ∧
    px3 ((preprocess img0).headD []) 0 0 0 = some (100 / 255) ∧
    (0 : ℚ) ≤ 100 / 255 ∧ (100 : ℚ) / 255 ≤ 1 := by
  obtain ⟨-, hall⟩ := c7_preprocess_contract
  obtain ⟨h1, -, -, hshape, hbounds⟩ := hall img0
  have hb := hbounds 0 0 0 100 rfl (by norm_num) (by norm_num)
  exact ⟨h1, hshape (imgShape_replicate 256 256 3 100), hb.1, hb.2.1, hb.2.2⟩

/-- C8: on the success path, `/predict/` first writes the full record with
`treatment = null` under the request's fresh document id (line 134), then
performs a treatment-only update (line 139): the final store is exactly
`updateTreatment (setDoc store id rec0) id t`; the document after the first
write is `rec0` (with `treatment = none`); after the update it is `rec0`
with only the `treatment` field replaced; and every other document of the
store is untouched. -/
theorem c8_create_null_then_update_only_treatment
    (plant_type user_id : String) (env : PredictEnv) (store : Store)
    (labels : List String) (preds : List (List ℚ)) (disease : String) (prob : ℚ)
    (hlabels : class_names_lookup plant_type = some labels)
    (hpreds : env.modelOutput (select_model plant_type) (preprocess env.raw_img) = preds)
    (hd : labels.get? (argmax preds.flatten) = some disease)
    (hp : (preds.headD []).get? (argmax preds.flatten) = some prob)
    (hfresh : getDoc store env.document_id = none) :
    (initialRecord plant_type user_id disease prob env).treatment = none ∧
    (predict plant_type user_id env store).status = 200 ∧
    (predict plant_type user_id env store).store
      = updateTreatment
          (setDoc store env.document_id (initialRecord plant_type user_id disease prob env))
          env.document_id
          (generate_treatment disease plant_type user_id env.gen) ∧
    getDoc (setDoc store env.document_id (initialRecord plant_type user_id disease prob env))
        env.document_id
      = some (initialRecord plant_type user_id disease prob env) ∧
    getDoc (predict plant_type user_id env store).store env.document_id
      = some { initialRecord plant_type user_id disease prob env with
                treatment := some (generate_treatment disease plant_type user_id env.gen) } ∧
    (∀ id', id' ≠ env.document_id →
      getDoc (predict plant_type user_id env store).store id' = getDoc store id') := by
  have hpred : predict plant_type user_id env store =
      { status := 200,
        store := updateTreatment
          (setDoc store env.document_id (initialRecord plant_type user_id disease prob env))
          env.document_id
          (generate_treatment disease plant_type user_id env.gen),
        effects := { uploads := 1, inferences := 1, creates := 1, updates := 1 },
        response := some { initialRecord plant_type user_id disease prob env with
          treatment := some (generate_treatment disease plant_type user_id env.gen) } } := by
    unfold predict
    rw [hlabels]
    simp only [hpreds, hd, hp, initialRecord]
  refine ⟨rfl, by rw [hpred], by rw [hpred], getDoc_setDoc_self store env.document_id _, ?_, ?_⟩
  · rw [hpred]
    show getDoc (updateTreatment _ _ _) _ = _
    rw [getDoc_updateTreatment_self, getDoc_setDoc_self]
    rfl
  · intro id' hid
    rw [hpred]
    show getDoc (updateTreatment _ _ _) _ = _
    rw [getDoc_updateTreatment_ne _ _ _ _ hid, getDoc_setDoc_ne _ _ _ _ hid]

/-- Witness for C8 at a concrete input: a tomato request against the empty
store whose model answers `oneHot9` (label "healthy" at index 9 with raw
value 1) creates document "doc-1" with null treatment, then updates only
its treatment. -/
theorem c8_create_null_then_update_only_treatment_witness :
    (initialRecord "tomato" "u1" "healthy" 1 (mkEnv oneHot9 genOk)).treatment = none ∧
    (predict "tomato" "u1" (mkEnv oneHot9 genOk) []).status = 200 ∧
    getDoc (predict "tomato" "u1" (mkEnv oneHot9 genOk) []).store "doc-1"
      = some { initialRecord "tomato" "u1" "healthy" 1 (mkEnv oneHot9 genOk) with
                treatment := some (generate_treatment "healthy" "tomato" "u1"
                  (mkEnv oneHot9 genOk).gen) } ∧
    getDoc (predict "tomato" "u1" (mkEnv oneHot9 genOk) []).store "other" = getDoc [] "other" := by
  have h := c8_create_null_then_update_only_treatment "tomato" "u1"
    (mkEnv oneHot9 genOk) []
    ["Bacterial_spot", "Early_blight", "Late_blight", "Leaf_Mold",
     "Septoria_leaf_spot", "Spider_mites", "Target_Spot",
     "Tomato_Yellow_Leaf_Curl_Virus", "Tomato_mosaic_virus", "healthy"]
    [oneHot9] "healthy" 1 rfl rfl (by decide) (by decide) rfl
  exact ⟨h.1, h.2.1, h.2.2.2.2.1, h.2.2.2.2.2 "other" (by decide)⟩

/-- C9: for a 'chili' request the code selects the tomato classifier
(10-entry output, spec §3) while `class_names['chili']` has 4 entries; the
lookup `class_names[plant_type][predicted_class]` at line 115 therefore
goes out of range whenever the arg-max index is ≥ 4, the `IndexError` is
caught by the `except` at line 143, and the request fails with 500 — no
chili label is returned and nothing is written. -/
theorem c9_chili_oob_label_lookup_500
    (user_id : String) (env : PredictEnv) (store : Store) (row : List ℚ)
    (hrow : env.modelOutput (select_model "chili") (preprocess env.raw_img) = [row])
    (hlen : row.length = numClasses ModelId.tomato)
    (hoob : 4 ≤ argmax row) :
    select_model "chili" = ModelId.tomato ∧
    numClasses ModelId.tomato = 10 ∧
    (class_names_lookup "chili").map List.length = some 4 ∧
    (predict "chili" user_id env store).status = 500 ∧
    (predict "chili" user_id env store).response = none ∧
    (predict "chili" user_id env store).store = store := by
  have hlab : class_names_lookup "chili"
      = some ["Bacterial_spot", "Healthy", "Late_blight", "Leaf_Mold"] := rfl
  have hflat : ([row] : List (List ℚ)).flatten = row := by simp
  have hnone : (["Bacterial_spot", "Healthy", "Late_blight", "Leaf_Mold"] :
      List String).get? (argmax row) = none := by
    rw [List.get?_eq_none]
    simpa using hoob
  refine ⟨by decide, rfl, rfl, ?_, ?_, ?_⟩ <;>
  · unfold predict
    rw [hlab]
    simp only [hrow, hflat, hnone]

/-- Witness for C9 at a concrete input: a chili request whose (tomato)
model output is `oneHot9` — length 10, arg-max 9 ≥ 4 — ends in a 500 with
no response and an unchanged store. -/
theorem c9_chili_oob_label_lookup_500_witness :
    (4 : Nat) ≤ argmax oneHot9 ∧
    oneHot9.length = numClasses ModelId.tomato ∧
    (predict "chili" "u1" (mkEnv oneHot9 genOk) []).status = 500 ∧
    (predict "chili" "u1" (mkEnv oneHot9 genOk) []).response = none := by
  have h := c9_chili_oob_label_lookup_500 "u1" (mkEnv oneHot9 genOk) [] oneHot9
    rfl (by decide) (by decide)
  exact ⟨by decide, by decide, h.2.2.2.1, h.2.2.2.2.1⟩

/-- Witness for C5 at concrete inputs: the three external outcomes map to
the three documented strings. -/
theorem c5_generate_treatment_never_raises_witness :
    generate_treatment "Anthracnose" "mango" "u1" (fun _ => GenOutcome.raises)
      = "Error generating treatment suggestion." ∧
    generate_treatment "Anthracnose" "mango" "u1" (fun _ => GenOutcome.response none)
      = "No suggestion available." ∧
    generate_treatment "Anthracnose" "mango" "u1" (fun _ => GenOutcome.response (some "spray"))
      = "spray" :=
  ⟨(c5_generate_treatment_never_raises "Anthracnose" "mango" "u1"
      (fun _ => GenOutcome.raises)).1 rfl,
    (c5_generate_treatment_never_raises "Anthracnose" "mango" "u1"
      (fun _ => GenOutcome.response none)).2.1 rfl,
    (c5_generate_treatment_never_raises "Anthracnose" "mango" "u1"
      (fun _ => GenOutcome.response (some "spray"))).2.2 "spray" rfl⟩

/-- C10: `generate_treatment` takes `user_id` but its body never uses it:
the prompt `treatment_prompt disease plant` — the only value sent to the
external oracle — does not take `user_id` at all, so two calls with equal
`disease` and `plant` behave identically whatever the `user_id`; moreover
the returned text depends only on the oracle's answer at that one prompt. -/
theorem c10_user_id_does_not_influence_treatment (disease plant u1 u2 : String) :
    (∀ gen : String → GenOutcome,
      generate_treatment disease plant u1 gen = generate_treatment disease plant u2 gen) ∧
    (∀ g1 g2 : String → GenOutcome,
      g1 (treatment_prompt disease plant) = g2 (treatment_prompt disease plant) →
      generate_treatment disease plant u1 g1 = generate_treatment disease plant u2 g2) := by
  refine ⟨fun gen => rfl, fun g1 g2 h => ?_⟩
  unfold generate_treatment
  rw [h]

/-- Witness for C10 at concrete inputs: users "alice" and "bob" get the
same treatment text for the same disease and plant. -/
theorem c10_user_id_does_not_influence_treatment_witness :
    generate_treatment "Healthy" "chili" "alice" genOk
      = generate_treatment "Healthy" "chili" "bob" genOk :=
  (c10_user_id_does_not_influence_treatment "Healthy" "chili" "alice" "bob").2
    genOk genOk rfl

end PlantCare
